import Mathlib

/-!
Verification of the insurance-portal backend (`src/main.py`, `src/schemas.py`)
against its natural-language specification.

The Python handlers are shallowly embedded as pure Lean functions over an
explicit store state.  Raw stored documents are association lists of
string-keyed dynamic values; the Pydantic models of `schemas.py` become Lean
structures, with `parseX` (validation, `X(**d)`) and `serializeX`
(`model_dump()` / JSON response shape) functions.  Python `float` amounts are
modelled as `Int` (all amounts in the program are integral); datetimes carry a
calendar date and a seconds-of-day component.

`database.py` is imported by `main.py` but is not part of the sources under
verification, so the store adapter (`db`, `create_document`, `get_documents`)
is modelled from the specification's Store Adapter contract (section 4.1).
-/

namespace InsurancePortal

/-- Calendar date (`datetime.date`). -/
structure CalDate where
  year : Nat
  month : Nat
  day : Nat
deriving DecidableEq

/-- A point in time (`datetime.datetime`): a calendar date plus a
seconds-of-day component.  `toDate` is Python's `datetime.date()`. -/
structure DateTime where
  toDate : CalDate
  sec : Nat
deriving DecidableEq

/-- Predecessor calendar day (used to model `timedelta` subtraction that
borrows across midnight). -/
def CalDate.prevDay (d : CalDate) : CalDate :=
  if d.day > 1 then ⟨d.year, d.month, d.day - 1⟩
  else if d.month > 1 then ⟨d.year, d.month - 1, 31⟩
  else ⟨d.year - 1, 12, 31⟩

/-- `dt - timedelta(seconds=n)` for `n < 86400`, borrowing one day if needed. -/
def DateTime.subSecs (dt : DateTime) (n : Nat) : DateTime :=
  if n ≤ dt.sec then ⟨dt.toDate, dt.sec - n⟩
  else ⟨dt.toDate.prevDay, dt.sec + 86400 - n⟩

/-- `dt - timedelta(hours=6)`. -/
def DateTime.subHours6 (dt : DateTime) : DateTime := dt.subSecs 21600

/-- `dt - timedelta(days=1)`. -/
def DateTime.subDays1 (dt : DateTime) : DateTime := ⟨dt.toDate.prevDay, dt.sec⟩

/-- Dynamic values stored in a raw document.  `viso t` is the ISO-8601 text
rendering of the datetime `t` (produced by `.isoformat()`); `vnull` is
Python `None`. -/
inductive Value where
  | vstr (s : String)
  | vint (n : Int)
  | vdate (d : CalDate)
  | vdt (t : DateTime)
  | viso (t : DateTime)
  | vnull
deriving DecidableEq

/-- A raw stored document: an association list from field names to values
(Python dict with unique keys). -/
def Doc := List (String × Value)

instance : DecidableEq Doc := by unfold Doc; infer_instance

/-- First value bound to `key` (`d.get(key)` / `d[key]`). -/
def getVal : Doc → String → Option Value
  | [], _ => none
  | (k, v) :: rest, key => if k = key then some v else getVal rest key

/-- `d.get(key, default)`. -/
def getValD (d : Doc) (key : String) (dflt : Value) : Value :=
  (getVal d key).getD dflt

/-- `d.pop("_id", None)`: the document without its internal storage
identifier. -/
def popId (d : Doc) : Doc :=
  d.filter (fun kv => kv.1 != "_id")

/-- The field names of a document, in order. -/
def keysOf (d : Doc) : List String := d.map Prod.fst

/-!
## Store adapter

Modelled from the spec: `database.py` (the `db` handle, `create_document`,
`get_documents`) is not among the sources, so we follow the Store Adapter
contract of spec section 4.1: `isAvailable` reflects whether a connection was
established at startup; `findAll` returns all records of a collection in
insertion order; `insert` appends one record; `count` counts records matching
a filter.
-/

/-- The document store as seen by the handlers: an availability flag (Python's
`db` truthiness) and, per collection name, the stored documents in insertion
order. -/
structure Store where
  available : Bool
  colls : String → List Doc

/-- Modelled from the spec: `get_documents(coll)` of the missing
`database.py` — `findAll`, all records of a collection in insertion order.
Handlers only call it when the store is available. -/
def get_documents (s : Store) (c : String) : List Doc := s.colls c

/-- Modelled from the spec: `create_document(coll, record)` of the missing
`database.py` — `insert`, appending one serialized record to a collection. -/
def create_document (s : Store) (c : String) (d : Doc) : Store :=
  ⟨s.available, fun n => if n = c then s.colls n ++ [d] else s.colls n⟩

/-- `db[c].count_documents(filter)`: number of stored documents matching the
filter predicate. -/
def count_documents (s : Store) (c : String) (p : Doc → Bool) : Nat :=
  ((s.colls c).filter p).length

/-- The filter `{"status": v}`. -/
def statusIs (v : String) (d : Doc) : Bool :=
  getVal d "status" == some (Value.vstr v)

/-!
## Dashboard (`GET /api/dashboard`) and notification (`GET /api/notification`)
-/

/-- `DashboardCounts` response model (`main.py`). `outstanding_total` is a
Python float; every amount in the program is integral, so it is an `Int`
here. -/
structure DashboardCounts where
  active_policies : Nat
  outstanding_invoices : Nat
  outstanding_total : Int
  renewals_due : Nat
  risk_updates : Nat
deriving DecidableEq

/-- `i.get("amount", 0)` for a stored invoice with a numeric amount. -/
def docAmount (d : Doc) : Int :=
  match getVal d "amount" with
  | some (Value.vint n) => n
  | _ => 0

/-- `get_dashboard_counts` (`main.py` lines 73-87).  Each field falls back to
a literal when `db` is falsy; the two invoice fields additionally fall back
when the list of outstanding invoices is empty (Python truthiness of the
list). -/
def get_dashboard_counts (s : Store) : DashboardCounts :=
  let active := if s.available then count_documents s "policy" (statusIs "active") else 3
  let outstanding := if s.available then (s.colls "invoice").filter (statusIs "outstanding") else []
  let outstanding_count := if outstanding.isEmpty then 2 else outstanding.length
  let outstanding_total := if outstanding.isEmpty then 24500 else (outstanding.map docAmount).sum
  let renewals_due := if s.available then count_documents s "renewal" (statusIs "due") else 0
  let risk_updates := if s.available then (s.colls "update").length else 1
  ⟨active, outstanding_count, outstanding_total, renewals_due, risk_updates⟩

/-- Notification severity levels (`Literal["info", "warning", "critical"]`). -/
inductive NotifLevel where
  | info
  | warning
  | critical
deriving DecidableEq

/-- `Notification` model (`schemas.py`). -/
structure Notification where
  title : String
  message : String
  level : NotifLevel
deriving DecidableEq

/-- `get_notification` (`main.py` lines 57-63).  The handler reads no state;
the store parameter records that the response is independent of it. -/
def get_notification (_s : Store) : Notification :=
  ⟨"Outstanding Invoices",
   "Outstanding Invoices: $24,500 – Payment due Nov 15 & Nov 20",
   NotifLevel.warning⟩

/-!
## Entity models (`schemas.py`)

Pydantic models become structures; `Literal[...]` status fields become
inductives; `Optional[T] = dflt` fields become `Option` fields whose parse
supplies the default when the key is absent.  `EmailStr` is modelled as a
plain string (its format validation lives inside Pydantic, outside this
program's code).
-/

inductive PolicyStatus where
  | active
  | expired
  | cancelled
deriving DecidableEq

def PolicyStatus.toStr : PolicyStatus → String
  | .active => "active"
  | .expired => "expired"
  | .cancelled => "cancelled"

structure Policy where
  policy_number : String
  product : String
  status : PolicyStatus
  start_date : CalDate
  end_date : CalDate
  premium : Int
  insured_entity : String
deriving DecidableEq

structure DocumentItem where
  filename : String
  content_type : Option String
  size_bytes : Option Int
  category : Option String
  policy_number : Option String
deriving DecidableEq

inductive InvoiceStatus where
  | outstanding
  | paid
deriving DecidableEq

def InvoiceStatus.toStr : InvoiceStatus → String
  | .outstanding => "outstanding"
  | .paid => "paid"

structure Invoice where
  invoice_number : String
  amount : Int
  due_date : CalDate
  status : InvoiceStatus
  policy_number : Option String
deriving DecidableEq

inductive RenewalStatus where
  | due
  | submitted
  | not_required
deriving DecidableEq

def RenewalStatus.toStr : RenewalStatus → String
  | .due => "due"
  | .submitted => "submitted"
  | .not_required => "not_required"

structure Renewal where
  policy_number : String
  product : String
  renewal_date : CalDate
  status : RenewalStatus
deriving DecidableEq

structure Activity where
  type : String
  message : String
  actor : Option String
  occurred_at : Option DateTime
deriving DecidableEq

structure Update where
  title : String
  label : Option String
  description : Option String
  date_str : String
deriving DecidableEq

structure TeamMember where
  name : String
  role : String
  email : String
  phone : String
  linkedin : Option String
deriving DecidableEq

/-!
## Parsing (Pydantic validation, `X(**d)`) and serialization (`model_dump()`)
-/

/-- A required `str` field value. -/
def asStr : Option Value → Option String
  | some (Value.vstr s) => some s
  | _ => none

/-- A required numeric field value. -/
def asInt : Option Value → Option Int
  | some (Value.vint n) => some n
  | _ => none

/-- A required `date` field value. -/
def asDate : Option Value → Option CalDate
  | some (Value.vdate d) => some d
  | _ => none

/-- An `Optional[str]` field with default `dflt` when the key is absent. -/
def optStrFieldD (d : Doc) (k : String) (dflt : Option String) : Option (Option String) :=
  match getVal d k with
  | none => some dflt
  | some Value.vnull => some none
  | some (Value.vstr s) => some (some s)
  | some _ => none

/-- An `Optional[str] = None` field. -/
def optStrField (d : Doc) (k : String) : Option (Option String) :=
  optStrFieldD d k none

/-- An `Optional[int] = None` field constrained to `ge=0`. -/
def optNonnegIntField (d : Doc) (k : String) : Option (Option Int) :=
  match getVal d k with
  | none => some none
  | some Value.vnull => some none
  | some (Value.vint n) => if 0 ≤ n then some (some n) else none
  | some _ => none

/-- An `Optional[datetime] = None` field; Pydantic accepts a datetime value
or its ISO-8601 text. -/
def optDtField (d : Doc) (k : String) : Option (Option DateTime) :=
  match getVal d k with
  | none => some none
  | some Value.vnull => some none
  | some (Value.vdt t) => some (some t)
  | some (Value.viso t) => some (some t)
  | some _ => none

def parsePolicyStatus : Value → Option PolicyStatus
  | Value.vstr "active" => some PolicyStatus.active
  | Value.vstr "expired" => some PolicyStatus.expired
  | Value.vstr "cancelled" => some PolicyStatus.cancelled
  | _ => none

def parseInvoiceStatus : Value → Option InvoiceStatus
  | Value.vstr "outstanding" => some InvoiceStatus.outstanding
  | Value.vstr "paid" => some InvoiceStatus.paid
  | _ => none

def parseRenewalStatus : Value → Option RenewalStatus
  | Value.vstr "due" => some RenewalStatus.due
  | Value.vstr "submitted" => some RenewalStatus.submitted
  | Value.vstr "not_required" => some RenewalStatus.not_required
  | _ => none

/-- `Policy(**d)`: validation of a raw document against the `Policy` schema
(extra keys ignored, `status` defaults to `"active"`, `premium ≥ 0`). -/
def parsePolicy (d : Doc) : Option Policy :=
  match asStr (getVal d "policy_number"), asStr (getVal d "product"),
        parsePolicyStatus (getValD d "status" (Value.vstr "active")),
        asDate (getVal d "start_date"), asDate (getVal d "end_date"),
        asInt (getVal d "premium"), asStr (getVal d "insured_entity") with
  | some pn, some pr, some st, some sd, some ed, some pm, some ie =>
      if 0 ≤ pm then some ⟨pn, pr, st, sd, ed, pm, ie⟩ else none
  | _, _, _, _, _, _, _ => none

/-- `DocumentItem(**d)`. -/
def parseDocumentItem (d : Doc) : Option DocumentItem :=
  match asStr (getVal d "filename"), optStrField d "content_type",
        optNonnegIntField d "size_bytes", optStrField d "category",
        optStrField d "policy_number" with
  | some fn, some ct, some sb, some cat, some pn => some ⟨fn, ct, sb, cat, pn⟩
  | _, _, _, _, _ => none

/-- `Invoice(**d)` (`status` defaults to `"outstanding"`, `amount ≥ 0`). -/
def parseInvoice (d : Doc) : Option Invoice :=
  match asStr (getVal d "invoice_number"), asInt (getVal d "amount"),
        asDate (getVal d "due_date"),
        parseInvoiceStatus (getValD d "status" (Value.vstr "outstanding")),
        optStrField d "policy_number" with
  | some inv, some am, some dd, some st, some pn =>
      if 0 ≤ am then some ⟨inv, am, dd, st, pn⟩ else none
  | _, _, _, _, _ => none

/-- `Renewal(**d)` (`status` defaults to `"due"`). -/
def parseRenewal (d : Doc) : Option Renewal :=
  match asStr (getVal d "policy_number"), asStr (getVal d "product"),
        asDate (getVal d "renewal_date"),
        parseRenewalStatus (getValD d "status" (Value.vstr "due")) with
  | some pn, some pr, some rd, some st => some ⟨pn, pr, rd, st⟩
  | _, _, _, _ => none

/-- `Activity(**d)` (`actor` defaults to `"system"`). -/
def parseActivity (d : Doc) : Option Activity :=
  match asStr (getVal d "type"), asStr (getVal d "message"),
        optStrFieldD d "actor" (some "system"), optDtField d "occurred_at" with
  | some ty, some msg, some act, some occ => some ⟨ty, msg, act, occ⟩
  | _, _, _, _ => none

/-- `Update(**d)` (`label` defaults to `"Latest Update"`). -/
def parseUpdate (d : Doc) : Option Update :=
  match asStr (getVal d "title"), optStrFieldD d "label" (some "Latest Update"),
        optStrField d "description", asStr (getVal d "date_str") with
  | some t, some l, some ds, some dstr => some ⟨t, l, ds, dstr⟩
  | _, _, _, _ => none

/-- `TeamMember(**d)`. -/
def parseTeamMember (d : Doc) : Option TeamMember :=
  match asStr (getVal d "name"), asStr (getVal d "role"),
        asStr (getVal d "email"), asStr (getVal d "phone"),
        optStrField d "linkedin" with
  | some nm, some rl, some em, some ph, some li => some ⟨nm, rl, em, ph, li⟩
  | _, _, _, _, _ => none

/-- Serialization of an `Option String` value (`None` / `str`). -/
def optVal : Option String → Value
  | some s => Value.vstr s
  | none => Value.vnull

def serializePolicy (p : Policy) : Doc :=
  [("policy_number", Value.vstr p.policy_number), ("product", Value.vstr p.product),
   ("status", Value.vstr p.status.toStr), ("start_date", Value.vdate p.start_date),
   ("end_date", Value.vdate p.end_date), ("premium", Value.vint p.premium),
   ("insured_entity", Value.vstr p.insured_entity)]

def serializeDocumentItem (x : DocumentItem) : Doc :=
  [("filename", Value.vstr x.filename), ("content_type", optVal x.content_type),
   ("size_bytes", match x.size_bytes with | some n => Value.vint n | none => Value.vnull),
   ("category", optVal x.category), ("policy_number", optVal x.policy_number)]

def serializeInvoice (x : Invoice) : Doc :=
  [("invoice_number", Value.vstr x.invoice_number), ("amount", Value.vint x.amount),
   ("due_date", Value.vdate x.due_date), ("status", Value.vstr x.status.toStr),
   ("policy_number", optVal x.policy_number)]

def serializeRenewal (x : Renewal) : Doc :=
  [("policy_number", Value.vstr x.policy_number), ("product", Value.vstr x.product),
   ("renewal_date", Value.vdate x.renewal_date), ("status", Value.vstr x.status.toStr)]

def serializeActivity (x : Activity) : Doc :=
  [("type", Value.vstr x.type), ("message", Value.vstr x.message),
   ("actor", optVal x.actor),
   ("occurred_at", match x.occurred_at with | some t => Value.vdt t | none => Value.vnull)]

def serializeUpdate (x : Update) : Doc :=
  [("title", Value.vstr x.title), ("label", optVal x.label),
   ("description", optVal x.description), ("date_str", Value.vstr x.date_str)]

def serializeTeamMember (x : TeamMember) : Doc :=
  [("name", Value.vstr x.name), ("role", Value.vstr x.role),
   ("email", Value.vstr x.email), ("phone", Value.vstr x.phone),
   ("linkedin", optVal x.linkedin)]

/-!
## Per-document transforms and list parsing
-/

/-- `if isinstance(v, datetime): v = v.date()` — truncate a datetime to its
calendar date; every other value is untouched. -/
def coerceDate : Value → Value
  | Value.vdt t => Value.vdate t.toDate
  | v => v

/-- Apply `coerceDate` to the values stored under the given keys
(`for k in keys: if isinstance(d.get(k), datetime): d[k] = d[k].date()`). -/
def coerceKeys (keys : List String) (d : Doc) : Doc :=
  d.map (fun kv => if kv.1 ∈ keys then (kv.1, coerceDate kv.2) else kv)

/-- `if isinstance(v, datetime): v = v.isoformat()`. -/
def coerceIso : Value → Value
  | Value.vdt t => Value.viso t
  | v => v

/-- Per-document normalization in `list_policies`: drop `_id`, truncate
`start_date`/`end_date`. -/
def transformPolicyDoc (d : Doc) : Doc :=
  coerceKeys ["start_date", "end_date"] (popId d)

/-- Per-document normalization in `list_invoices`: drop `_id`, truncate
`due_date`. -/
def transformInvoiceDoc (d : Doc) : Doc :=
  coerceKeys ["due_date"] (popId d)

/-- Per-document normalization in `list_renewals`: drop `_id`, truncate
`renewal_date`. -/
def transformRenewalDoc (d : Doc) : Doc :=
  coerceKeys ["renewal_date"] (popId d)

/-- Per-document normalization in `list_activities`: drop `_id`, render a
datetime `occurred_at` as ISO-8601 text. -/
def transformActivityDoc (d : Doc) : Doc :=
  (popId d).map (fun kv => if kv.1 = "occurred_at" then (kv.1, coerceIso kv.2) else kv)

/-- `[X(**d) for d in docs]`: validate every document, failing the whole
request (a server error, `none`) on the first invalid one. -/
def mapParse {α : Type} (f : Doc → Option α) : List Doc → Option (List α)
  | [] => some []
  | d :: ds =>
    match f d, mapParse f ds with
    | some a, some l => some (a :: l)
    | _, _ => none

/-!
## List endpoints (`main.py`)
-/

/-- `list_policies` (`GET /api/policies`, lines 90-102). -/
def list_policies (s : Store) : Option (List Policy) :=
  let docs := if s.available then get_documents s "policy" else []
  mapParse parsePolicy (docs.map transformPolicyDoc)

/-- `list_documents` (`GET /api/documents`, lines 119-126). -/
def list_documents (s : Store) : Option (List DocumentItem) :=
  let docs := if s.available then get_documents s "documentitem" else []
  mapParse parseDocumentItem (docs.map popId)

/-- `list_invoices` (`GET /api/invoices`, lines 129-136). -/
def list_invoices (s : Store) : Option (List Invoice) :=
  let docs := if s.available then get_documents s "invoice" else []
  mapParse parseInvoice (docs.map transformInvoiceDoc)

/-- `list_renewals` (`GET /api/renewals`, lines 139-146). -/
def list_renewals (s : Store) : Option (List Renewal) :=
  let docs := if s.available then get_documents s "renewal" else []
  mapParse parseRenewal (docs.map transformRenewalDoc)

/-- The fallback `Update` record of `list_updates` (line 155), which is also
the seed record of line 43. -/
def updateFallback : Update :=
  ⟨"New Cyber Insurance Requirements for 2025", some "Latest Update",
   some "Multi-factor authentication and endpoint detection are now standard.",
   "Nov 10, 2024"⟩

/-- `list_updates` (`GET /api/updates`, lines 149-156): strip ids, then fall
back to one literal record when nothing is left. -/
def list_updates (s : Store) : Option (List Update) :=
  let docs := (if s.available then get_documents s "update" else []).map popId
  mapParse parseUpdate (if docs.isEmpty then [serializeUpdate updateFallback] else docs)

/-- The two fallback `TeamMember` records of `list_team` (lines 165-168),
which are also the seed records of lines 46-47. -/
def teamFallback : List TeamMember :=
  [⟨"Monique Reibelt", "Senior Broker", "monique@example.com", "+1 (555) 123-4567",
    some "https://linkedin.com/in/moniquereibelt"⟩,
   ⟨"Stuart Madden", "Service Agent", "stuart@example.com", "+1 (555) 987-6543",
    some "https://linkedin.com/in/stuartmadden"⟩]

/-- `list_team` (`GET /api/team`, lines 159-169). -/
def list_team (s : Store) : Option (List TeamMember) :=
  let docs := (if s.available then get_documents s "teammember" else []).map popId
  mapParse parseTeamMember (if docs.isEmpty then teamFallback.map serializeTeamMember else docs)

/-- The three fallback `Activity` records of `list_activities`
(lines 180-184); each `occurred_at` is `datetime.utcnow()` at the time of the
call. -/
def activityFallback (now : DateTime) : List Activity :=
  [⟨"policy_renewal", "Commercial Property Insurance renewed for another year",
    some "system", some now⟩,
   ⟨"payment_made", "Payment made", some "John Smith", some now⟩,
   ⟨"document_uploaded", "Document uploaded", some "John Smith", some now⟩]

/-- `list_activities` (`GET /api/activities`, lines 172-185): stored
documents get `_id` stripped and `occurred_at` rendered as ISO text; when
nothing is left the three literal records (stamped with the current time
`now`) are used. -/
def list_activities (s : Store) (now : DateTime) : Option (List Activity) :=
  let docs := (if s.available then get_documents s "activity" else []).map transformActivityDoc
  mapParse parseActivity
    (if docs.isEmpty then (activityFallback now).map serializeActivity else docs)

/-- `upload_document` (`POST /api/documents/upload`, lines 105-117): build a
`DocumentItem` with category `"Uploaded"` from the uploaded file's metadata
and persist it only when the store is available.  (The HTTP response is
`{"status": "ok", "filename": filename}` regardless.) -/
def upload_document (s : Store) (filename : String) (content_type : Option String)
    (policy_number : Option String) : Store :=
  let item : DocumentItem := ⟨filename, content_type, none, some "Uploaded", policy_number⟩
  if s.available then create_document s "documentitem" (serializeDocumentItem item) else s

/-!
## Startup seeding (`seed_demo`, lines 26-54)

The seed datetimes for date-typed fields are midnights, which Pydantic
validates to the plain calendar date.  What `create_document` persists is the
record's serialized form (spec 4.1: `insert` writes one record).
-/

/-- Insert a list of records into one collection, in order. -/
def insertAll (s : Store) (c : String) (ds : List Doc) : Store :=
  ds.foldl (fun st d => create_document st c d) s

/-- `if db and db[c].count_documents({}) == 0: insert the seeds`. -/
def seedColl (s : Store) (c : String) (ds : List Doc) : Store :=
  if s.available ∧ count_documents s c (fun _ => true) = 0 then insertAll s c ds else s

def seedPolicies : List Doc :=
  [serializePolicy ⟨"CP-12345", "Commercial Property", PolicyStatus.active,
     ⟨2024, 1, 1⟩, ⟨2024, 12, 31⟩, 12000, "Acme Corp"⟩,
   serializePolicy ⟨"GL-67890", "General Liability", PolicyStatus.active,
     ⟨2024, 3, 1⟩, ⟨2025, 2, 28⟩, 8500, "Acme Corp"⟩,
   serializePolicy ⟨"CY-22222", "Cyber", PolicyStatus.active,
     ⟨2024, 6, 1⟩, ⟨2025, 5, 31⟩, 4000, "Acme Corp"⟩]

def seedInvoices : List Doc :=
  [serializeInvoice ⟨"INV-001", 15000, ⟨2025, 11, 15⟩, InvoiceStatus.outstanding, none⟩,
   serializeInvoice ⟨"INV-002", 9500, ⟨2025, 11, 20⟩, InvoiceStatus.outstanding, none⟩]

def seedRenewals : List Doc :=
  [serializeRenewal ⟨"XX-0000", "Directors & Officers", ⟨2026, 2, 1⟩,
     RenewalStatus.not_required⟩]

def seedUpdates : List Doc := [serializeUpdate updateFallback]

def seedTeam : List Doc := teamFallback.map serializeTeamMember

def seedActivities (now : DateTime) : List Doc :=
  [serializeActivity ⟨"policy_renewal",
     "Commercial Property Insurance renewed for another year", some "system", some now⟩,
   serializeActivity ⟨"payment_made", "Payment of $10,000 recorded",
     some "John Smith", some now.subHours6⟩,
   serializeActivity ⟨"document_uploaded", "Evidence.pdf uploaded",
     some "John Smith", some now.subDays1⟩]

/-- `seed_demo`: seed each of the six collections that is empty at startup
(`now` is `datetime.utcnow()` at startup time). -/
def seed_demo (s : Store) (now : DateTime) : Store :=
  let s1 := seedColl s "policy" seedPolicies
  let s2 := seedColl s1 "invoice" seedInvoices
  let s3 := seedColl s2 "renewal" seedRenewals
  let s4 := seedColl s3 "update" seedUpdates
  let s5 := seedColl s4 "teammember" seedTeam
  seedColl s5 "activity" (seedActivities now)

/-!
## The Record Access Layer operation of the spec

Modelled from the spec, for comparison with the concrete handlers.
-/

/-- Modelled from the spec (section 4.2): `listEntitiesOrDefault(kind,
defaults)` — return `defaults` unmodified when the store is unavailable;
otherwise normalize every record of `findAll(collection)` and return
`defaults` when the result is empty, the validated records otherwise. -/
def listEntitiesOrDefault {α : Type} (s : Store) (c : String) (tr : Doc → Doc)
    (defaults : List α) (parse : Doc → Option α) : Option (List α) :=
  if s.available = false then some defaults
  else
    let docs := (get_documents s c).map tr
    if docs.isEmpty then some defaults else mapParse parse docs

/-!
## Response schema conformance predicates

One boolean check per entity: the document is exactly the declared field
list, in order, each value of its declared kind (status strings drawn from
the declared literals).
-/

def policyDocOK : Doc → Bool
  | [("policy_number", Value.vstr _), ("product", Value.vstr _), ("status", Value.vstr st),
     ("start_date", Value.vdate _), ("end_date", Value.vdate _), ("premium", Value.vint _),
     ("insured_entity", Value.vstr _)] =>
      st == "active" || st == "expired" || st == "cancelled"
  | _ => false

def documentItemDocOK : Doc → Bool
  | [("filename", Value.vstr _), ("content_type", ct), ("size_bytes", sb),
     ("category", cat), ("policy_number", pn)] =>
      (match ct with | Value.vstr _ => true | Value.vnull => true | _ => false)
      && (match sb with | Value.vint _ => true | Value.vnull => true | _ => false)
      && (match cat with | Value.vstr _ => true | Value.vnull => true | _ => false)
      && (match pn with | Value.vstr _ => true | Value.vnull => true | _ => false)
  | _ => false

def invoiceDocOK : Doc → Bool
  | [("invoice_number", Value.vstr _), ("amount", Value.vint _), ("due_date", Value.vdate _),
     ("status", Value.vstr st), ("policy_number", pn)] =>
      (st == "outstanding" || st == "paid")
      && (match pn with | Value.vstr _ => true | Value.vnull => true | _ => false)
  | _ => false

def renewalDocOK : Doc → Bool
  | [("policy_number", Value.vstr _), ("product", Value.vstr _),
     ("renewal_date", Value.vdate _), ("status", Value.vstr st)] =>
      st == "due" || st == "submitted" || st == "not_required"
  | _ => false

def activityDocOK : Doc → Bool
  | [("type", Value.vstr _), ("message", Value.vstr _), ("actor", act), ("occurred_at", occ)] =>
      (match act with | Value.vstr _ => true | Value.vnull => true | _ => false)
      && (match occ with | Value.vdt _ => true | Value.viso _ => true | Value.vnull => true | _ => false)
  | _ => false

def updateDocOK : Doc → Bool
  | [("title", Value.vstr _), ("label", lb), ("description", ds), ("date_str", Value.vstr _)] =>
      (match lb with | Value.vstr _ => true | Value.vnull => true | _ => false)
      && (match ds with | Value.vstr _ => true | Value.vnull => true | _ => false)
  | _ => false

def teamMemberDocOK : Doc → Bool
  | [("name", Value.vstr _), ("role", Value.vstr _), ("email", Value.vstr _),
     ("phone", Value.vstr _), ("linkedin", li)] =>
      (match li with | Value.vstr _ => true | Value.vnull => true | _ => false)
  | _ => false

/-!
## Helper lemmas
-/

theorem isEmpty_map {α β : Type} (f : α → β) (l : List α) :
    (l.map f).isEmpty = l.isEmpty := by
  cases l <;> rfl

theorem count_documents_true_eq_zero (s : Store) (c : String) :
    count_documents s c (fun _ => true) = 0 ↔ s.colls c = [] := by
  simp [count_documents]

theorem getVal_popId (d : Doc) (k : String) (h : k ≠ "_id") :
    getVal (popId d) k = getVal d k := by
  induction d with
  | nil => rfl
  | cons kv rest ih =>
    obtain ⟨k', v⟩ := kv
    by_cases hid : k' = "_id"
    · have hkeep : (k' != "_id") = false := by simp [hid]
      have hne : k' ≠ k := fun hc => h (hc ▸ hid)
      simp only [popId, List.filter_cons, hkeep, if_neg] at *
      rw [show getVal ((k', v) :: rest) k = getVal rest k from by
        simp [getVal, hne]]
      exact ih
    · have hkeep : (k' != "_id") = true := by simp [hid]
      simp only [popId, List.filter_cons, hkeep] at *
      by_cases hk : k' = k
      · simp [getVal, hk]
      · simp [getVal, hk, ih]

theorem getVal_coerceKeys_mem (keys : List String) (d : Doc) (k : String)
    (hk : k ∈ keys) :
    getVal (coerceKeys keys d) k = (getVal d k).map coerceDate := by
  induction d with
  | nil => rfl
  | cons kv rest ih =>
    obtain ⟨k', v⟩ := kv
    have hcons : coerceKeys keys ((k', v) :: rest)
        = (if k' ∈ keys then (k', coerceDate v) else (k', v)) :: coerceKeys keys rest := by
      simp only [coerceKeys, List.map_cons]
    rw [hcons]
    by_cases hmem : k' ∈ keys
    · rw [if_pos hmem]
      by_cases hkk : k' = k
      · subst hkk
        simp [getVal]
      · simp [getVal, hkk, ih]
    · rw [if_neg hmem]
      have hkk : k' ≠ k := fun hc => hmem (hc ▸ hk)
      simp [getVal, hkk, ih]

theorem mapParse_mem {α : Type} (f : Doc → Option α) (ds : List Doc)
    (l : List α) (h : mapParse f ds = some l) (d : Doc) (hd : d ∈ ds) :
    ∃ a ∈ l, f d = some a := by
  induction ds generalizing l with
  | nil => cases hd
  | cons d0 rest ih =>
    rw [mapParse] at h
    match hf : f d0, hrest : mapParse f rest with
    | some a, some l0 =>
      rw [hf, hrest] at h
      cases h
      rcases List.mem_cons.mp hd with hd0 | hd1
      · exact ⟨a, List.mem_cons_self a l0, hd0 ▸ hf⟩
      · obtain ⟨b, hb, hfb⟩ := ih l0 hrest hd1
        exact ⟨b, List.mem_cons_of_mem a hb, hfb⟩
    | some _, none => rw [hf, hrest] at h; cases h
    | none, _ => rw [hf] at h; cases h

theorem mapParse_length {α : Type} (f : Doc → Option α) (ds : List Doc)
    (l : List α) (h : mapParse f ds = some l) : l.length = ds.length := by
  induction ds generalizing l with
  | nil => rw [mapParse] at h; cases h; rfl
  | cons d0 rest ih =>
    rw [mapParse] at h
    match hf : f d0, hrest : mapParse f rest with
    | some a, some l0 =>
      rw [hf, hrest] at h
      cases h
      simp [ih l0 hrest]
    | some _, none => rw [hf, hrest] at h; cases h
    | none, _ => rw [hf] at h; cases h

theorem create_document_colls (s : Store) (c : String) (d : Doc) (n : String) :
    (create_document s c d).colls n = if n = c then s.colls n ++ [d] else s.colls n := rfl

theorem insertAll_colls (s : Store) (c : String) (ds : List Doc) (n : String) :
    (insertAll s c ds).colls n = if n = c then s.colls n ++ ds else s.colls n := by
  induction ds generalizing s with
  | nil => by_cases h : n = c <;> simp [insertAll, h]
  | cons d rest ih =>
    have hstep : insertAll s c (d :: rest) = insertAll (create_document s c d) c rest := rfl
    rw [hstep, ih, create_document_colls]
    by_cases h : n = c <;> simp [h]

theorem seedColl_colls_of_ne_nil (s : Store) (c : String) (ds : List Doc)
    (n : String) (h : s.colls n ≠ []) : (seedColl s c ds).colls n = s.colls n := by
  unfold seedColl
  split
  · next hcond =>
    rw [insertAll_colls]
    split
    · next hn =>
      exact absurd ((count_documents_true_eq_zero s c).mp hcond.2) (hn ▸ h)
    · rfl
  · rfl

theorem insertAll_available (s : Store) (c : String) (ds : List Doc) :
    (insertAll s c ds).available = s.available := by
  induction ds generalizing s with
  | nil => rfl
  | cons d rest ih => exact ih (create_document s c d)

theorem seedColl_available (s : Store) (c : String) (ds : List Doc) :
    (seedColl s c ds).available = s.available := by
  unfold seedColl
  split
  · exact insertAll_available s c ds
  · rfl

/-!
## Claim theorems
-/

/-- C2.  With an unavailable store, the dashboard computation returns exactly
`active_policies = 3`, `outstanding_invoices = 2`, `outstanding_total =
24500`, `renewals_due = 0`, `risk_updates = 1`, whatever the (unreachable)
collection contents are. -/
theorem dashboard_unavailable_constants (colls : String → List Doc) :
    get_dashboard_counts ⟨false, colls⟩ = ⟨3, 2, 24500, 0, 1⟩ := rfl

/-- C10.  `GET /api/notification` returns the same fixed `Notification` on
every call — title "Outstanding Invoices", message "Outstanding Invoices:
$24,500 – Payment due Nov 15 & Nov 20", level warning — independent of the
store state, hence of store availability and of the stored invoice
records. -/
theorem notification_constant :
    (∀ s : Store, get_notification s =
      ⟨"Outstanding Invoices",
       "Outstanding Invoices: $24,500 – Payment due Nov 15 & Nov 20",
       NotifLevel.warning⟩)
    ∧ (∀ s₁ s₂ : Store, get_notification s₁ = get_notification s₂) :=
  ⟨fun _ => rfl, fun _ _ => rfl⟩

theorem updateFallback_roundtrip :
    mapParse parseUpdate [serializeUpdate updateFallback] = some [updateFallback] := rfl

theorem teamFallback_roundtrip :
    mapParse parseTeamMember (teamFallback.map serializeTeamMember) = some teamFallback := rfl

theorem activityFallback_roundtrip (now : DateTime) :
    mapParse parseActivity ((activityFallback now).map serializeActivity)
      = some (activityFallback now) := rfl

theorem listEntitiesOrDefault_eq {α : Type} (s : Store) (c : String) (tr : Doc → Doc)
    (defaults : List α) (parse : Doc → Option α) :
    listEntitiesOrDefault s c tr defaults parse =
      if s.available = false ∨ s.colls c = [] then some defaults
      else mapParse parse ((s.colls c).map tr) := by
  unfold listEntitiesOrDefault get_documents
  cases hav : s.available
  · simp
  · by_cases hnil : s.colls c = []
    · simp [hnil]
    · have hne : ((s.colls c).map tr).isEmpty = false := by
        rw [isEmpty_map]
        cases h : s.colls c
        · exact absurd h hnil
        · rfl
      simp [hnil, hne]

theorem list_updates_eq (s : Store) :
    list_updates s =
      if s.available = false ∨ s.colls "update" = [] then some [updateFallback]
      else mapParse parseUpdate ((s.colls "update").map popId) := by
  unfold list_updates get_documents
  cases hav : s.available
  · simp [updateFallback_roundtrip]
  · by_cases hnil : s.colls "update" = []
    · simp [hnil, updateFallback_roundtrip]
    · have hne : ((s.colls "update").map popId).isEmpty = false := by
        rw [isEmpty_map]
        cases h : s.colls "update"
        · exact absurd h hnil
        · rfl
      simp [hnil, hne]

theorem list_team_eq (s : Store) :
    list_team s =
      if s.available = false ∨ s.colls "teammember" = [] then some teamFallback
      else mapParse parseTeamMember ((s.colls "teammember").map popId) := by
  unfold list_team get_documents
  cases hav : s.available
  · simp [teamFallback_roundtrip]
  · by_cases hnil : s.colls "teammember" = []
    · simp [hnil, teamFallback_roundtrip]
    · have hne : ((s.colls "teammember").map popId).isEmpty = false := by
        rw [isEmpty_map]
        cases h : s.colls "teammember"
        · exact absurd h hnil
        · rfl
      simp [hnil, hne]

theorem list_activities_eq (s : Store) (now : DateTime) :
    list_activities s now =
      if s.available = false ∨ s.colls "activity" = [] then some (activityFallback now)
      else mapParse parseActivity ((s.colls "activity").map transformActivityDoc) := by
  unfold list_activities get_documents
  cases hav : s.available
  · simp [activityFallback_roundtrip]
  · by_cases hnil : s.colls "activity" = []
    · simp [hnil, activityFallback_roundtrip]
    · have hne : ((s.colls "activity").map transformActivityDoc).isEmpty = false := by
        rw [isEmpty_map]
        cases h : s.colls "activity"
        · exact absurd h hnil
        · rfl
      simp [hnil, hne]

/-- C1.  For every entity kind, the list operation with defaults returns the
defaults exactly when the store is unavailable or the store returns zero
records for the collection, and the per-document-normalized stored records in
every other case; the three handlers that supply defaults (`list_updates`,
`list_team`, `list_activities`) are instances of it. -/
theorem listEntitiesOrDefault_defaults_iff :
    (∀ {α : Type} (s : Store) (c : String) (tr : Doc → Doc) (defaults : List α)
        (parse : Doc → Option α),
        listEntitiesOrDefault s c tr defaults parse =
          if s.available = false ∨ s.colls c = [] then some defaults
          else mapParse parse ((s.colls c).map tr))
    ∧ (∀ s, list_updates s =
        listEntitiesOrDefault s "update" popId [updateFallback] parseUpdate)
    ∧ (∀ s, list_team s =
        listEntitiesOrDefault s "teammember" popId teamFallback parseTeamMember)
    ∧ (∀ s now, list_activities s now =
        listEntitiesOrDefault s "activity" transformActivityDoc (activityFallback now)
          parseActivity) := by
  refine ⟨fun s c tr defaults parse => listEntitiesOrDefault_eq s c tr defaults parse,
    fun s => ?_, fun s => ?_, fun s now => ?_⟩
  · rw [list_updates_eq, listEntitiesOrDefault_eq]
  · rw [list_team_eq, listEntitiesOrDefault_eq]
  · rw [list_activities_eq, listEntitiesOrDefault_eq]

theorem mapParse_ne_nil {α : Type} (f : Doc → Option α) (ds : List Doc)
    (l : List α) (h : mapParse f ds = some l) (hds : ds ≠ []) : l ≠ [] := by
  intro hl
  subst hl
  have := mapParse_length f ds [] h
  simp at this
  exact hds (List.length_eq_zero.mp this.symm)

/-- C5.  Whenever `GET /api/updates`, `GET /api/team` or `GET /api/activities`
returns a sequence it is non-empty; and when the store is unavailable or the
collection holds zero records they return exactly the one, two, three literal
fallback records respectively. -/
theorem list_endpoints_never_empty :
    (∀ (s : Store) (l : List Update), list_updates s = some l → l ≠ [])
    ∧ (∀ (s : Store) (l : List TeamMember), list_team s = some l → l ≠ [])
    ∧ (∀ (s : Store) (now : DateTime) (l : List Activity),
        list_activities s now = some l → l ≠ [])
    ∧ (∀ s : Store, s.available = false ∨ s.colls "update" = [] →
        list_updates s = some [updateFallback] ∧ [updateFallback].length = 1)
    ∧ (∀ s : Store, s.available = false ∨ s.colls "teammember" = [] →
        list_team s = some teamFallback ∧ teamFallback.length = 2)
    ∧ (∀ (s : Store) (now : DateTime), s.available = false ∨ s.colls "activity" = [] →
        list_activities s now = some (activityFallback now)
          ∧ (activityFallback now).length = 3) := by
  refine ⟨fun s l h => ?_, fun s l h => ?_, fun s now l h => ?_,
    fun s hc => ?_, fun s hc => ?_, fun s now hc => ?_⟩
  · rw [list_updates_eq] at h
    split at h
    · cases h
      simp
    · next hcond =>
      push_neg at hcond
      refine mapParse_ne_nil _ _ _ h ?_
      simp [hcond.2]
  · rw [list_team_eq] at h
    split at h
    · cases h
      simp [teamFallback]
    · next hcond =>
      push_neg at hcond
      refine mapParse_ne_nil _ _ _ h ?_
      simp [hcond.2]
  · rw [list_activities_eq] at h
    split at h
    · cases h
      simp [activityFallback]
    · next hcond =>
      push_neg at hcond
      refine mapParse_ne_nil _ _ _ h ?_
      simp [hcond.2]
  · rw [list_updates_eq, if_pos hc]
    exact ⟨rfl, rfl⟩
  · rw [list_team_eq, if_pos hc]
    exact ⟨rfl, rfl⟩
  · rw [list_activities_eq, if_pos hc]
    exact ⟨rfl, rfl⟩

/-- C5 witness: with no store, the three endpoints return exactly their
fallback sequences, none of them empty. -/
theorem list_endpoints_never_empty_witness :
    ([updateFallback] ≠ [] ∧ teamFallback ≠ []
      ∧ activityFallback ⟨⟨2024, 11, 10⟩, 0⟩ ≠ [])
    ∧ (list_updates ⟨false, fun _ => []⟩ = some [updateFallback]
      ∧ list_team ⟨false, fun _ => []⟩ = some teamFallback
      ∧ list_activities ⟨false, fun _ => []⟩ ⟨⟨2024, 11, 10⟩, 0⟩
          = some (activityFallback ⟨⟨2024, 11, 10⟩, 0⟩)) := by
  have h1 := (list_endpoints_never_empty.2.2.2.1 ⟨false, fun _ => []⟩ (Or.inl rfl)).1
  have h2 := (list_endpoints_never_empty.2.2.2.2.1 ⟨false, fun _ => []⟩ (Or.inl rfl)).1
  have h3 := (list_endpoints_never_empty.2.2.2.2.2 ⟨false, fun _ => []⟩
    ⟨⟨2024, 11, 10⟩, 0⟩ (Or.inl rfl)).1
  exact ⟨⟨list_endpoints_never_empty.1 _ _ h1,
    list_endpoints_never_empty.2.1 _ _ h2,
    list_endpoints_never_empty.2.2.1 _ _ _ h3⟩, h1, h2, h3⟩

/-- C4 counterexample: in the fallback state (store unavailable), two calls of
`GET /api/activities` made at different times return different sequences —
the fallback records carry `datetime.utcnow()` in `occurred_at`, so the
fallback data is not deterministic across calls. -/
theorem activities_fallback_differs_across_calls :
    list_activities ⟨false, fun _ => []⟩ ⟨⟨2024, 11, 10⟩, 0⟩ ≠
    list_activities ⟨false, fun _ => []⟩ ⟨⟨2024, 11, 10⟩, 1⟩ := by decide

/-- The time-independent part of an activity record: everything except
`occurred_at`. -/
def activityShape (a : Activity) : String × String × Option String :=
  (a.type, a.message, a.actor)

/-- C4 amended: the fallback data of `GET /api/updates` and `GET /api/team`
is deterministic — in a fallback state every call returns the same literal
sequence, field for field; the fallback records of `GET /api/activities`
agree across calls in `type`, `message` and `actor`, but each call stamps
`occurred_at` with its own current time. -/
theorem fallback_determinism_amended :
    (∀ s : Store, s.available = false ∨ s.colls "update" = [] →
        list_updates s = some [updateFallback])
    ∧ (∀ s : Store, s.available = false ∨ s.colls "teammember" = [] →
        list_team s = some teamFallback)
    ∧ (∀ (s : Store) (t₁ t₂ : DateTime), s.available = false ∨ s.colls "activity" = [] →
        (list_activities s t₁).map (List.map activityShape)
          = (list_activities s t₂).map (List.map activityShape))
    ∧ (∀ (s : Store) (t : DateTime), s.available = false ∨ s.colls "activity" = [] →
        list_activities s t = some (activityFallback t)
          ∧ ∀ a ∈ activityFallback t, a.occurred_at = some t) := by
  refine ⟨fun s hc => ?_, fun s hc => ?_, fun s t₁ t₂ hc => ?_, fun s t hc => ⟨?_, ?_⟩⟩
  · rw [list_updates_eq, if_pos hc]
  · rw [list_team_eq, if_pos hc]
  · rw [list_activities_eq, if_pos hc, list_activities_eq, if_pos hc]
    rfl
  · rw [list_activities_eq, if_pos hc]
  · intro a ha
    simp [activityFallback] at ha
    rcases ha with h | h | h <;> simp [h]

/-- C4 witness: the amended statement at the unavailable store and two
concrete times. -/
theorem fallback_determinism_amended_witness :
    list_updates ⟨false, fun _ => []⟩ = some [updateFallback]
    ∧ list_team ⟨false, fun _ => []⟩ = some teamFallback
    ∧ (list_activities ⟨false, fun _ => []⟩ ⟨⟨2024, 11, 10⟩, 0⟩).map (List.map activityShape)
        = (list_activities ⟨false, fun _ => []⟩ ⟨⟨2024, 11, 10⟩, 1⟩).map (List.map activityShape)
    ∧ list_activities ⟨false, fun _ => []⟩ ⟨⟨2024, 11, 10⟩, 0⟩
        = some (activityFallback ⟨⟨2024, 11, 10⟩, 0⟩) :=
  ⟨fallback_determinism_amended.1 ⟨false, fun _ => []⟩ (Or.inl rfl),
   fallback_determinism_amended.2.1 ⟨false, fun _ => []⟩ (Or.inl rfl),
   fallback_determinism_amended.2.2.1 ⟨false, fun _ => []⟩ _ _ (Or.inl rfl),
   (fallback_determinism_amended.2.2.2 ⟨false, fun _ => []⟩ _ (Or.inl rfl)).1⟩

/-- Concrete records used to instantiate theorems with hypotheses. -/
def demoPolicy : Policy :=
  ⟨"CP-12345", "Commercial Property", PolicyStatus.active,
   ⟨2024, 1, 1⟩, ⟨2024, 12, 31⟩, 12000, "Acme Corp"⟩

def demoInvoice : Invoice :=
  ⟨"INV-001", 15000, ⟨2025, 11, 15⟩, InvoiceStatus.outstanding, none⟩

def demoRenewal : Renewal :=
  ⟨"XX-0000", "Directors & Officers", ⟨2026, 2, 1⟩, RenewalStatus.due⟩

def demoDocumentItem : DocumentItem :=
  ⟨"policy.pdf", some "application/pdf", some 100, some "Policy", none⟩

def demoTeamMember : TeamMember :=
  ⟨"Monique Reibelt", "Senior Broker", "monique@example.com",
   "+1 (555) 123-4567", none⟩

def demoActivity : Activity :=
  ⟨"policy_renewal", "Commercial Property Insurance renewed",
   some "system", some ⟨⟨2024, 11, 10⟩, 3600⟩⟩

/-- A concrete available store holding one record per collection, used to
instantiate theorems with hypotheses. -/
def demoStore : Store :=
  ⟨true, fun c =>
    if c = "policy" then [serializePolicy demoPolicy]
    else if c = "invoice" then [serializeInvoice demoInvoice]
    else if c = "renewal" then [serializeRenewal demoRenewal]
    else if c = "update" then [serializeUpdate updateFallback]
    else if c = "documentitem" then [serializeDocumentItem demoDocumentItem]
    else if c = "teammember" then [serializeTeamMember demoTeamMember]
    else if c = "activity" then [serializeActivity demoActivity]
    else []⟩

/-- C3 counterexample: an available store whose collections are all empty.
Zero invoices have status "outstanding", yet the dashboard reports the
literal fallback constants 2 and 24500 for the two invoice fields — the
fallback constants are not used only when the store is unavailable. -/
theorem dashboard_fallback_despite_available_store :
    (Store.mk true (fun _ => [])).available = true
    ∧ ((Store.mk true (fun _ => [])).colls "invoice").filter (statusIs "outstanding") = []
    ∧ get_dashboard_counts ⟨true, fun _ => []⟩ = ⟨0, 2, 24500, 0, 0⟩ :=
  ⟨rfl, rfl, rfl⟩

/-- C3 amended: when the store is available, `active_policies`,
`renewals_due` and `risk_updates` are computed from the store; the two
invoice fields are computed from the store exactly when at least one stored
invoice has status "outstanding", and take the literal fallback constants 2
and 24500 when none does. -/
theorem dashboard_computed_when_available (s : Store) (h : s.available = true) :
    (get_dashboard_counts s).active_policies = count_documents s "policy" (statusIs "active")
    ∧ (get_dashboard_counts s).renewals_due = count_documents s "renewal" (statusIs "due")
    ∧ (get_dashboard_counts s).risk_updates = (s.colls "update").length
    ∧ ((s.colls "invoice").filter (statusIs "outstanding") ≠ [] →
        (get_dashboard_counts s).outstanding_invoices
          = ((s.colls "invoice").filter (statusIs "outstanding")).length
        ∧ (get_dashboard_counts s).outstanding_total
          = (((s.colls "invoice").filter (statusIs "outstanding")).map docAmount).sum)
    ∧ ((s.colls "invoice").filter (statusIs "outstanding") = [] →
        (get_dashboard_counts s).outstanding_invoices = 2
        ∧ (get_dashboard_counts s).outstanding_total = 24500) := by
  unfold get_dashboard_counts
  rw [h]
  cases hout : (s.colls "invoice").filter (statusIs "outstanding") with
  | nil => simp
  | cons d rest => simp

/-- C3 witness: the amended statement at the one-record demo store, where one
stored invoice is outstanding. -/
theorem dashboard_computed_when_available_witness :
    ((get_dashboard_counts demoStore).active_policies
        = count_documents demoStore "policy" (statusIs "active")
      ∧ (get_dashboard_counts demoStore).risk_updates = (demoStore.colls "update").length)
    ∧ ((demoStore.colls "invoice").filter (statusIs "outstanding") ≠ []
      ∧ (get_dashboard_counts demoStore).outstanding_invoices
          = ((demoStore.colls "invoice").filter (statusIs "outstanding")).length
      ∧ (get_dashboard_counts demoStore).outstanding_total
          = (((demoStore.colls "invoice").filter (statusIs "outstanding")).map docAmount).sum) := by
  have h := dashboard_computed_when_available demoStore rfl
  have hne : (demoStore.colls "invoice").filter (statusIs "outstanding") ≠ [] := by decide
  exact ⟨⟨h.1, h.2.2.1⟩, hne, (h.2.2.2.1 hne).1, (h.2.2.2.1 hne).2⟩

theorem coerceKeys_popId_vdt (keys : List String) (k : String) (hk : k ∈ keys)
    (hid : k ≠ "_id") (d : Doc) (t : DateTime)
    (h : getVal d k = some (Value.vdt t)) :
    getVal (coerceKeys keys (popId d)) k = some (Value.vdate t.toDate) := by
  rw [getVal_coerceKeys_mem keys (popId d) k hk, getVal_popId d k hid, h]
  rfl

/-- C6.  A stored datetime under a date-only field (`start_date`, `end_date`,
`due_date`, `renewal_date`) is coerced by the list endpoints to exactly the
datetime's calendar date, and the coercion agrees on any two datetimes with
the same calendar date, whatever their time-of-day components. -/
theorem date_coercion_truncates :
    (∀ (d : Doc) (t : DateTime), getVal d "start_date" = some (Value.vdt t) →
        getVal (transformPolicyDoc d) "start_date" = some (Value.vdate t.toDate))
    ∧ (∀ (d : Doc) (t : DateTime), getVal d "end_date" = some (Value.vdt t) →
        getVal (transformPolicyDoc d) "end_date" = some (Value.vdate t.toDate))
    ∧ (∀ (d : Doc) (t : DateTime), getVal d "due_date" = some (Value.vdt t) →
        getVal (transformInvoiceDoc d) "due_date" = some (Value.vdate t.toDate))
    ∧ (∀ (d : Doc) (t : DateTime), getVal d "renewal_date" = some (Value.vdt t) →
        getVal (transformRenewalDoc d) "renewal_date" = some (Value.vdate t.toDate))
    ∧ (∀ t₁ t₂ : DateTime, t₁.toDate = t₂.toDate →
        coerceDate (Value.vdt t₁) = coerceDate (Value.vdt t₂)) := by
  refine ⟨fun d t h => ?_, fun d t h => ?_, fun d t h => ?_, fun d t h => ?_,
    fun t₁ t₂ h => ?_⟩
  · exact coerceKeys_popId_vdt _ _ (by simp) (by simp) d t h
  · exact coerceKeys_popId_vdt _ _ (by simp) (by simp) d t h
  · exact coerceKeys_popId_vdt _ _ (by simp) (by simp) d t h
  · exact coerceKeys_popId_vdt _ _ (by simp) (by simp) d t h
  · simp [coerceDate, h]

/-- C6 witness: a stored document whose `start_date` is the datetime
2024-05-01 02:00:00 is coerced to the plain date 2024-05-01, and two
datetimes on 2024-05-01 with different times coerce identically. -/
theorem date_coercion_truncates_witness :
    getVal (transformPolicyDoc
        [("_id", Value.vint 7), ("start_date", Value.vdt ⟨⟨2024, 5, 1⟩, 7200⟩)])
        "start_date" = some (Value.vdate ⟨2024, 5, 1⟩)
    ∧ coerceDate (Value.vdt ⟨⟨2024, 5, 1⟩, 0⟩) = coerceDate (Value.vdt ⟨⟨2024, 5, 1⟩, 86399⟩) :=
  ⟨date_coercion_truncates.1
      [("_id", Value.vint 7), ("start_date", Value.vdt ⟨⟨2024, 5, 1⟩, 7200⟩)]
      ⟨⟨2024, 5, 1⟩, 7200⟩ rfl,
   date_coercion_truncates.2.2.2.2 ⟨⟨2024, 5, 1⟩, 0⟩ ⟨⟨2024, 5, 1⟩, 86399⟩ rfl⟩

theorem serializePolicy_ok (x : Policy) :
    keysOf (serializePolicy x) = ["policy_number", "product", "status", "start_date",
      "end_date", "premium", "insured_entity"]
    ∧ "_id" ∉ keysOf (serializePolicy x)
    ∧ policyDocOK (serializePolicy x) = true := by
  obtain ⟨pn, pr, st, sd, ed, pm, ie⟩ := x
  have hkeys : keysOf (serializePolicy ⟨pn, pr, st, sd, ed, pm, ie⟩)
      = ["policy_number", "product", "status", "start_date", "end_date", "premium",
         "insured_entity"] := rfl
  refine ⟨hkeys, ?_, ?_⟩
  · rw [hkeys]
    decide
  · cases st <;> rfl

theorem serializeDocumentItem_ok (x : DocumentItem) :
    keysOf (serializeDocumentItem x) = ["filename", "content_type", "size_bytes",
      "category", "policy_number"]
    ∧ "_id" ∉ keysOf (serializeDocumentItem x)
    ∧ documentItemDocOK (serializeDocumentItem x) = true := by
  obtain ⟨fn, ct, sb, cat, pn⟩ := x
  have hkeys : keysOf (serializeDocumentItem ⟨fn, ct, sb, cat, pn⟩)
      = ["filename", "content_type", "size_bytes", "category", "policy_number"] := rfl
  refine ⟨hkeys, ?_, ?_⟩
  · rw [hkeys]
    decide
  · cases ct <;> cases sb <;> cases cat <;> cases pn <;> rfl

theorem serializeInvoice_ok (x : Invoice) :
    keysOf (serializeInvoice x) = ["invoice_number", "amount", "due_date", "status",
      "policy_number"]
    ∧ "_id" ∉ keysOf (serializeInvoice x)
    ∧ invoiceDocOK (serializeInvoice x) = true := by
  obtain ⟨inv, am, dd, st, pn⟩ := x
  have hkeys : keysOf (serializeInvoice ⟨inv, am, dd, st, pn⟩)
      = ["invoice_number", "amount", "due_date", "status", "policy_number"] := rfl
  refine ⟨hkeys, ?_, ?_⟩
  · rw [hkeys]
    decide
  · cases st <;> cases pn <;> rfl

theorem serializeRenewal_ok (x : Renewal) :
    keysOf (serializeRenewal x) = ["policy_number", "product", "renewal_date", "status"]
    ∧ "_id" ∉ keysOf (serializeRenewal x)
    ∧ renewalDocOK (serializeRenewal x) = true := by
  obtain ⟨pn, pr, rd, st⟩ := x
  have hkeys : keysOf (serializeRenewal ⟨pn, pr, rd, st⟩)
      = ["policy_number", "product", "renewal_date", "status"] := rfl
  refine ⟨hkeys, ?_, ?_⟩
  · rw [hkeys]
    decide
  · cases st <;> rfl

theorem serializeActivity_ok (x : Activity) :
    keysOf (serializeActivity x) = ["type", "message", "actor", "occurred_at"]
    ∧ "_id" ∉ keysOf (serializeActivity x)
    ∧ activityDocOK (serializeActivity x) = true := by
  obtain ⟨ty, msg, act, occ⟩ := x
  have hkeys : keysOf (serializeActivity ⟨ty, msg, act, occ⟩)
      = ["type", "message", "actor", "occurred_at"] := rfl
  refine ⟨hkeys, ?_, ?_⟩
  · rw [hkeys]
    decide
  · cases act <;> cases occ <;> rfl

theorem serializeUpdate_ok (x : Update) :
    keysOf (serializeUpdate x) = ["title", "label", "description", "date_str"]
    ∧ "_id" ∉ keysOf (serializeUpdate x)
    ∧ updateDocOK (serializeUpdate x) = true := by
  obtain ⟨t, lb, ds, dstr⟩ := x
  have hkeys : keysOf (serializeUpdate ⟨t, lb, ds, dstr⟩)
      = ["title", "label", "description", "date_str"] := rfl
  refine ⟨hkeys, ?_, ?_⟩
  · rw [hkeys]
    decide
  · cases lb <;> cases ds <;> rfl

theorem serializeTeamMember_ok (x : TeamMember) :
    keysOf (serializeTeamMember x) = ["name", "role", "email", "phone", "linkedin"]
    ∧ "_id" ∉ keysOf (serializeTeamMember x)
    ∧ teamMemberDocOK (serializeTeamMember x) = true := by
  obtain ⟨nm, rl, em, ph, li⟩ := x
  have hkeys : keysOf (serializeTeamMember ⟨nm, rl, em, ph, li⟩)
      = ["name", "role", "email", "phone", "linkedin"] := rfl
  refine ⟨hkeys, ?_, ?_⟩
  · rw [hkeys]
    decide
  · cases li <;> rfl

/-- C7.  Every record returned by a list endpoint has had the internal
storage identifier `_id` removed, and serializes to exactly the declared
field set of its entity schema with values of the declared kinds. -/
theorem responses_conform_to_schema :
    (∀ (s : Store) (l : List Policy), list_policies s = some l → ∀ x ∈ l,
        keysOf (serializePolicy x) = ["policy_number", "product", "status", "start_date",
          "end_date", "premium", "insured_entity"]
        ∧ "_id" ∉ keysOf (serializePolicy x) ∧ policyDocOK (serializePolicy x) = true)
    ∧ (∀ (s : Store) (l : List DocumentItem), list_documents s = some l → ∀ x ∈ l,
        keysOf (serializeDocumentItem x) = ["filename", "content_type", "size_bytes",
          "category", "policy_number"]
        ∧ "_id" ∉ keysOf (serializeDocumentItem x)
        ∧ documentItemDocOK (serializeDocumentItem x) = true)
    ∧ (∀ (s : Store) (l : List Invoice), list_invoices s = some l → ∀ x ∈ l,
        keysOf (serializeInvoice x) = ["invoice_number", "amount", "due_date", "status",
          "policy_number"]
        ∧ "_id" ∉ keysOf (serializeInvoice x) ∧ invoiceDocOK (serializeInvoice x) = true)
    ∧ (∀ (s : Store) (l : List Renewal), list_renewals s = some l → ∀ x ∈ l,
        keysOf (serializeRenewal x) = ["policy_number", "product", "renewal_date", "status"]
        ∧ "_id" ∉ keysOf (serializeRenewal x) ∧ renewalDocOK (serializeRenewal x) = true)
    ∧ (∀ (s : Store) (l : List Update), list_updates s = some l → ∀ x ∈ l,
        keysOf (serializeUpdate x) = ["title", "label", "description", "date_str"]
        ∧ "_id" ∉ keysOf (serializeUpdate x) ∧ updateDocOK (serializeUpdate x) = true)
    ∧ (∀ (s : Store) (l : List TeamMember), list_team s = some l → ∀ x ∈ l,
        keysOf (serializeTeamMember x) = ["name", "role", "email", "phone", "linkedin"]
        ∧ "_id" ∉ keysOf (serializeTeamMember x)
        ∧ teamMemberDocOK (serializeTeamMember x) = true)
    ∧ (∀ (s : Store) (now : DateTime) (l : List Activity),
        list_activities s now = some l → ∀ x ∈ l,
        keysOf (serializeActivity x) = ["type", "message", "actor", "occurred_at"]
        ∧ "_id" ∉ keysOf (serializeActivity x)
        ∧ activityDocOK (serializeActivity x) = true) :=
  ⟨fun _ _ _ x _ => serializePolicy_ok x,
   fun _ _ _ x _ => serializeDocumentItem_ok x,
   fun _ _ _ x _ => serializeInvoice_ok x,
   fun _ _ _ x _ => serializeRenewal_ok x,
   fun _ _ _ x _ => serializeUpdate_ok x,
   fun _ _ _ x _ => serializeTeamMember_ok x,
   fun _ _ _ _ x _ => serializeActivity_ok x⟩

/-- C7 witness: the conformance facts instantiated through each endpoint at
the one-record demo store. -/
theorem responses_conform_to_schema_witness :
    (keysOf (serializePolicy demoPolicy) = ["policy_number", "product", "status",
        "start_date", "end_date", "premium", "insured_entity"]
      ∧ "_id" ∉ keysOf (serializePolicy demoPolicy)
      ∧ policyDocOK (serializePolicy demoPolicy) = true)
    ∧ ("_id" ∉ keysOf (serializeDocumentItem demoDocumentItem)
      ∧ documentItemDocOK (serializeDocumentItem demoDocumentItem) = true)
    ∧ ("_id" ∉ keysOf (serializeInvoice demoInvoice)
      ∧ invoiceDocOK (serializeInvoice demoInvoice) = true)
    ∧ ("_id" ∉ keysOf (serializeRenewal demoRenewal)
      ∧ renewalDocOK (serializeRenewal demoRenewal) = true)
    ∧ ("_id" ∉ keysOf (serializeUpdate updateFallback)
      ∧ updateDocOK (serializeUpdate updateFallback) = true)
    ∧ ("_id" ∉ keysOf (serializeTeamMember demoTeamMember)
      ∧ teamMemberDocOK (serializeTeamMember demoTeamMember) = true)
    ∧ ("_id" ∉ keysOf (serializeActivity demoActivity)
      ∧ activityDocOK (serializeActivity demoActivity) = true) := by
  have h1 := responses_conform_to_schema.1 demoStore [demoPolicy] rfl demoPolicy
    (List.mem_singleton.mpr rfl)
  have h2 := responses_conform_to_schema.2.1 demoStore [demoDocumentItem] rfl
    demoDocumentItem (List.mem_singleton.mpr rfl)
  have h3 := responses_conform_to_schema.2.2.1 demoStore [demoInvoice] rfl demoInvoice
    (List.mem_singleton.mpr rfl)
  have h4 := responses_conform_to_schema.2.2.2.1 demoStore [demoRenewal] rfl demoRenewal
    (List.mem_singleton.mpr rfl)
  have h5 := responses_conform_to_schema.2.2.2.2.1 demoStore [updateFallback] rfl
    updateFallback (List.mem_singleton.mpr rfl)
  have h6 := responses_conform_to_schema.2.2.2.2.2.1 demoStore [demoTeamMember] rfl
    demoTeamMember (List.mem_singleton.mpr rfl)
  have h7 := responses_conform_to_schema.2.2.2.2.2.2 demoStore ⟨⟨2025, 1, 1⟩, 0⟩
    [demoActivity] rfl demoActivity (List.mem_singleton.mpr rfl)
  exact ⟨h1, ⟨h2.2.1, h2.2.2⟩, ⟨h3.2.1, h3.2.2⟩, ⟨h4.2.1, h4.2.2⟩,
    ⟨h5.2.1, h5.2.2⟩, ⟨h6.2.1, h6.2.2⟩, h7.2.1, h7.2.2⟩

/-- C8 counterexample: with an unavailable store, `POST /api/documents/upload`
with filename "evidence.pdf" acknowledges the upload but persists nothing, and
the subsequent `GET /api/documents` returns the empty sequence — it includes
no `DocumentItem` at all, let alone one with filename "evidence.pdf" and
category "Uploaded". -/
theorem upload_lost_when_store_unavailable :
    list_documents (upload_document ⟨false, fun _ => []⟩ "evidence.pdf" none none)
      = some []
    ∧ ¬ ∃ (l : List DocumentItem) (d : DocumentItem),
        list_documents (upload_document ⟨false, fun _ => []⟩ "evidence.pdf" none none)
          = some l
        ∧ d ∈ l ∧ d.filename = "evidence.pdf" ∧ d.category = some "Uploaded" := by
  refine ⟨rfl, ?_⟩
  rintro ⟨l, d, hl, hd, -⟩
  have hnil : l = [] := by
    have : (some [] : Option (List DocumentItem)) = some l := by
      rw [show list_documents (upload_document ⟨false, fun _ => []⟩ "evidence.pdf"
        none none) = some [] from rfl] at hl
      exact hl.symm ▸ rfl
    exact (Option.some.injEq _ _ ▸ this).symm
  subst hnil
  exact absurd hd (List.not_mem_nil d)

/-- C8 amended: when the store is available, after `POST
/api/documents/upload` with filename "evidence.pdf" every successful `GET
/api/documents` response includes a `DocumentItem` with filename
"evidence.pdf" and category "Uploaded". -/
theorem upload_then_documents_include_item (s : Store) (ct pn : Option String)
    (l : List DocumentItem) (hav : s.available = true)
    (h : list_documents (upload_document s "evidence.pdf" ct pn) = some l) :
    ∃ d ∈ l, d.filename = "evidence.pdf" ∧ d.category = some "Uploaded" := by
  have hstore : upload_document s "evidence.pdf" ct pn
      = create_document s "documentitem"
          (serializeDocumentItem ⟨"evidence.pdf", ct, none, some "Uploaded", pn⟩) := by
    unfold upload_document
    rw [hav]
    rfl
  rw [hstore] at h
  unfold list_documents get_documents at h
  rw [show (create_document s "documentitem"
        (serializeDocumentItem ⟨"evidence.pdf", ct, none, some "Uploaded", pn⟩)).available
      = s.available from rfl, hav] at h
  simp only [if_true] at h
  rw [create_document_colls, if_pos rfl, List.map_append] at h
  have hmem : popId (serializeDocumentItem ⟨"evidence.pdf", ct, none, some "Uploaded", pn⟩)
      ∈ (s.colls "documentitem").map popId
        ++ [serializeDocumentItem ⟨"evidence.pdf", ct, none, some "Uploaded", pn⟩].map popId :=
    List.mem_append_right _ (by simp)
  obtain ⟨a, hal, hpa⟩ := mapParse_mem _ _ _ h _ hmem
  have hpu : parseDocumentItem
      (popId (serializeDocumentItem ⟨"evidence.pdf", ct, none, some "Uploaded", pn⟩))
      = some ⟨"evidence.pdf", ct, none, some "Uploaded", pn⟩ := by
    cases ct <;> cases pn <;> rfl
  rw [hpu] at hpa
  cases hpa
  exact ⟨_, hal, rfl, rfl⟩

/-- C8 witness: the amended statement at an available empty store: the
uploaded item appears in the subsequent listing. -/
theorem upload_then_documents_include_item_witness :
    ∃ d ∈ [(⟨"evidence.pdf", none, none, some "Uploaded", none⟩ : DocumentItem)],
      d.filename = "evidence.pdf" ∧ d.category = some "Uploaded" :=
  upload_then_documents_include_item ⟨true, fun _ => []⟩ none none
    [⟨"evidence.pdf", none, none, some "Uploaded", none⟩] rfl rfl

/-- C9.  The startup seed step writes to a collection only when it holds zero
documents: every collection that is non-empty when the process starts is left
unchanged by `seed_demo`, and a collection `seed_demo` changes at all must
have been empty. -/
theorem seed_demo_frame (s : Store) (now : DateTime) (c : String) :
    (s.colls c ≠ [] → (seed_demo s now).colls c = s.colls c)
    ∧ ((seed_demo s now).colls c ≠ s.colls c → s.colls c = []) := by
  have hframe : s.colls c ≠ [] → (seed_demo s now).colls c = s.colls c := by
    intro h
    have step : ∀ (st : Store) (cn : String) (ds : List Doc),
        st.colls c = s.colls c → (seedColl st cn ds).colls c = s.colls c := by
      intro st cn ds he
      rw [seedColl_colls_of_ne_nil st cn ds c (he ▸ h), he]
    exact step _ "activity" (seedActivities now)
      (step _ "teammember" seedTeam
        (step _ "update" seedUpdates
          (step _ "renewal" seedRenewals
            (step _ "invoice" seedInvoices
              (step s "policy" seedPolicies rfl)))))
  refine ⟨hframe, fun hne => ?_⟩
  by_contra hnil
  exact hne (hframe hnil)

/-- C9 witness: the demo store holds one policy record, and seeding leaves
its policy collection untouched. -/
theorem seed_demo_frame_witness :
    demoStore.colls "policy" ≠ []
    ∧ (seed_demo demoStore ⟨⟨2025, 1, 1⟩, 0⟩).colls "policy" = demoStore.colls "policy" :=
  ⟨by decide,
   (seed_demo_frame demoStore ⟨⟨2025, 1, 1⟩, 0⟩ "policy").1 (by decide)⟩

end InsurancePortal
